import Mathlib

/-!
Verification of the job-posting-extractor core: the Claude connector
(`connectors/claude.py`), the pydantic data model (`models.py`) and the
extraction service (`services/extraction.py`), shallowly embedded in Lean.
Exceptions are modelled as values of an inductive type `Exc`; raising is
modelled with `Except Exc`; the tenacity retry decorator is modelled as an
explicit loop that also records the backoff waits it would sleep.
-/

/-- Exceptions that can flow through the connector.  The first three model the
`anthropic` SDK error hierarchy (`RateLimitError`, `APIConnectionError`,
`APIStatusError` with its `status_code`); `extractionError` models
`exceptions.ExtractionError` (message plus `__cause__` from `raise ... from e`);
`validationError` models `pydantic.ValidationError`; `other` models any other
exception.  Each carries the string returned by `str(exc)`. -/
inductive Exc where
  | rateLimitError (message : String)
  | apiConnectionError (message : String)
  | apiStatusError (status_code : Nat) (message : String)
  | extractionError (message : String) (cause : Option Exc)
  | validationError (message : String)
  | other (message : String)

/-- `str(exc)`: the message carried by the exception. -/
def excStr : Exc → String
  | .rateLimitError m => m
  | .apiConnectionError m => m
  | .apiStatusError _ m => m
  | .extractionError m _ => m
  | .validationError m => m
  | .other m => m

/-- `isinstance(exc, anthropic.APIError)`. -/
def isAPIError : Exc → Bool
  | .rateLimitError _ => true
  | .apiConnectionError _ => true
  | .apiStatusError _ _ => true
  | _ => false

/-- `_is_retryable_error` from `connectors/claude.py`. -/
def is_retryable_error : Exc → Bool
  | .rateLimitError _ => true
  | .apiConnectionError _ => true
  | .apiStatusError status_code _ =>
      status_code == 429 || status_code == 500 || status_code == 502 ||
      status_code == 503 || status_code == 504
  | _ => false

/-- Whitespace characters stripped by Python `str.strip()` (ASCII subset). -/
def pyIsSpace (c : Char) : Bool :=
  c == ' ' || c == '\t' || c == '\n' || c == '\r' || c == '\x0b' || c == '\x0c'

/-- Python `str.strip()` on the character list of a string. -/
def py_strip (l : List Char) : List Char :=
  ((l.dropWhile pyIsSpace).reverse.dropWhile pyIsSpace).reverse

/-- Insert a thousands separator every three digits, on a reversed digit list. -/
def insertCommas : List Char → List Char
  | a :: b :: c :: d :: rest => a :: b :: c :: ',' :: insertCommas (d :: rest)
  | l => l

/-- Python format `f"\x7bn:,\x7d"`: decimal digits grouped in threes by commas. -/
def pyCommaFormat (n : Nat) : String :=
  String.mk (insertCommas (toString n).toList.reverse).reverse

/-- `ClaudeConnector._validate_message` with the default `max_chars = 50_000`:
empty or whitespace-only text and over-long text raise `ExtractionError`. -/
def validate_message (message : String) : Except Exc Unit :=
  if message.toList.isEmpty || (py_strip message.toList).isEmpty then
    .error (.extractionError "Message cannot be empty" none)
  else if 50000 < message.length then
    .error (.extractionError
      ("Message too long (" ++ pyCommaFormat message.length ++
        " chars). Maximum supported length is " ++ pyCommaFormat 50000 ++
        " characters.") none)
  else
    .ok ()

/-- A JSON-like value: what a tool-use payload or a serialized model holds.
A dict is an ordered association list, as produced by `model_dump`. -/
inductive JVal where
  | null
  | str (s : String)
  | int (n : Int)
  | arr (items : List JVal)
  | obj (fields : List (String × JVal))

/-- Dictionary lookup: value of the first binding of key `k`, if any. -/
def lookupKey (d : List (String × JVal)) (k : String) : Option JVal :=
  (d.find? (fun p => p.1 == k)).map (fun p => p.2)

/-- `models.WorkLocation` (StrEnum). -/
inductive WorkLocation where
  | remote | hybrid | on_site
deriving DecidableEq

/-- `models.EmploymentType` (StrEnum). -/
inductive EmploymentType where
  | full_time | part_time | contract | temporary | internship | freelance
deriving DecidableEq

/-- `models.ExperienceLevel` (StrEnum). -/
inductive ExperienceLevel where
  | entry | mid | senior | lead
deriving DecidableEq

def workLocationValue : WorkLocation → String
  | .remote => "remote"
  | .hybrid => "hybrid"
  | .on_site => "on_site"

def employmentTypeValue : EmploymentType → String
  | .full_time => "full_time"
  | .part_time => "part_time"
  | .contract => "contract"
  | .temporary => "temporary"
  | .internship => "internship"
  | .freelance => "freelance"

def experienceLevelValue : ExperienceLevel → String
  | .entry => "entry"
  | .mid => "mid"
  | .senior => "senior"
  | .lead => "lead"

def parseWorkLocation (s : String) : Option WorkLocation :=
  if s == "remote" then some .remote
  else if s == "hybrid" then some .hybrid
  else if s == "on_site" then some .on_site
  else none

def parseEmploymentType (s : String) : Option EmploymentType :=
  if s == "full_time" then some .full_time
  else if s == "part_time" then some .part_time
  else if s == "contract" then some .contract
  else if s == "temporary" then some .temporary
  else if s == "internship" then some .internship
  else if s == "freelance" then some .freelance
  else none

def parseExperienceLevel (s : String) : Option ExperienceLevel :=
  if s == "entry" then some .entry
  else if s == "mid" then some .mid
  else if s == "senior" then some .senior
  else if s == "lead" then some .lead
  else none

/-- A calendar date, as pydantic `datetime.date` (only what the model needs). -/
structure Date where
  year : Nat
  month : Nat
  day : Nat
deriving DecidableEq

/-- Pydantic date parsing from an ISO `YYYY-MM-DD` string (abstracted: digit
shape and basic range checks). -/
def parse_date (s : String) : Except Exc Date :=
  match s.splitOn "-" with
  | [y, m, d] =>
      if y.length = 4 ∧ m.length = 2 ∧ d.length = 2 then
        match y.toNat?, m.toNat?, d.toNat? with
        | some yn, some mn, some dn =>
            if 1 ≤ mn ∧ mn ≤ 12 ∧ 1 ≤ dn ∧ dn ≤ 31 then .ok ⟨yn, mn, dn⟩
            else .error (.validationError "Input should be a valid date")
        | _, _, _ => .error (.validationError "Input should be a valid date")
      else .error (.validationError "Input should be a valid date")
  | _ => .error (.validationError "Input should be a valid date")

/-- Zero-pad a number to the given width. -/
def padZeros (n width : Nat) : String :=
  String.mk (List.replicate (width - (toString n).length) '0') ++ toString n

/-- ISO `YYYY-MM-DD` rendering of a date. -/
def dateISO (d : Date) : String :=
  padZeros d.year 4 ++ "-" ++ padZeros d.month 2 ++ "-" ++ padZeros d.day 2

/-- Pydantic `HttpUrl` acceptance (abstracted: an http or https URL with a
non-empty remainder after the scheme). -/
def isHttpUrl (s : String) : Bool :=
  ("http://".isPrefixOf s && 7 < s.length) || ("https://".isPrefixOf s && 8 < s.length)

/-- `models.SalaryRange`. -/
structure SalaryRange where
  min : Option Int
  max : Option Int
  currency : String
deriving DecidableEq

/-- `models.JobPosting`, with pydantic field defaults. -/
structure JobPosting where
  job_title : String
  company : String
  location : Option String := none
  work_location : Option WorkLocation := none
  employment_type : Option EmploymentType := none
  experience_level : Option ExperienceLevel := none
  salary : Option SalaryRange := none
  requirements : List String := []
  nice_to_have : List String := []
  responsibilities : List String := []
  benefits : List String := []
  application_url : Option String := none
  application_deadline : Option Date := none
  posted_date : Option Date := none
deriving DecidableEq

/-- A required `str` field: absent or non-string input is a validation error. -/
def requireString (fieldName : String) (d : List (String × JVal)) : Except Exc String :=
  match lookupKey d fieldName with
  | none => .error (.validationError (fieldName ++ ": Field required"))
  | some (.str s) => .ok s
  | some _ => .error (.validationError (fieldName ++ ": Input should be a valid string"))

/-- A `str | None` field with default `None`. -/
def optionalString (fieldName : String) (d : List (String × JVal)) : Except Exc (Option String) :=
  match lookupKey d fieldName with
  | none => .ok none
  | some .null => .ok none
  | some (.str s) => .ok (some s)
  | some _ => .error (.validationError (fieldName ++ ": Input should be a valid string"))

/-- A `StrEnum | None` field with default `None`. -/
def optionalEnum {α : Type} (fieldName : String) (parse : String → Option α)
    (d : List (String × JVal)) : Except Exc (Option α) :=
  match lookupKey d fieldName with
  | none => .ok none
  | some .null => .ok none
  | some (.str s) =>
      match parse s with
      | some v => .ok (some v)
      | none => .error (.validationError (fieldName ++ ": Input should be a valid enumeration member"))
  | some _ => .error (.validationError (fieldName ++ ": Input should be a valid enumeration member"))

/-- An `int | None` field with default `None`. -/
def optionalInt (fieldName : String) (d : List (String × JVal)) : Except Exc (Option Int) :=
  match lookupKey d fieldName with
  | none => .ok none
  | some .null => .ok none
  | some (.int n) => .ok (some n)
  | some _ => .error (.validationError (fieldName ++ ": Input should be a valid integer"))

/-- Every element of a JSON array must be a string. -/
def parseStrList (fieldName : String) : List JVal → Except Exc (List String)
  | [] => .ok []
  | .str s :: rest => (parseStrList fieldName rest).map (fun l => s :: l)
  | _ :: _ => .error (.validationError (fieldName ++ ": Input should be a valid string"))

/-- A `list[str]` field with `default_factory=list`: absent means empty, but an
explicit null is a validation error. -/
def optionalList (fieldName : String) (d : List (String × JVal)) : Except Exc (List String) :=
  match lookupKey d fieldName with
  | none => .ok []
  | some (.arr items) => parseStrList fieldName items
  | some _ => .error (.validationError (fieldName ++ ": Input should be a valid list"))

/-- An `HttpUrl | None` field with default `None`. -/
def optionalUrl (fieldName : String) (d : List (String × JVal)) : Except Exc (Option String) :=
  match lookupKey d fieldName with
  | none => .ok none
  | some .null => .ok none
  | some (.str s) =>
      if isHttpUrl s then .ok (some s)
      else .error (.validationError (fieldName ++ ": Input should be a valid URL"))
  | some _ => .error (.validationError (fieldName ++ ": Input should be a valid URL"))

/-- A `date | None` field with default `None`. -/
def optionalDate (fieldName : String) (d : List (String × JVal)) : Except Exc (Option Date) :=
  match lookupKey d fieldName with
  | none => .ok none
  | some .null => .ok none
  | some (.str s) => (parse_date s).map some
  | some _ => .error (.validationError (fieldName ++ ": Input should be a valid date"))

/-- Pydantic validation of `SalaryRange` from a JSON object
(`currency` defaults to "EUR"). -/
def SalaryRange.model_validate (d : List (String × JVal)) : Except Exc SalaryRange := do
  let mn ← optionalInt "min" d
  let mx ← optionalInt "max" d
  let cur ←
    match lookupKey d "currency" with
    | none => Except.ok "EUR"
    | some (.str s) => Except.ok s
    | some _ => Except.error (.validationError "currency: Input should be a valid string")
  pure ⟨mn, mx, cur⟩

/-- Pydantic validation of `JobPosting` from a dict, i.e. the semantics of
`JobPosting(**job_data)`: required `job_title` and `company`, defaults for the
rest, per-field type checks, fields in declaration order. -/
def JobPosting.model_validate (d : List (String × JVal)) : Except Exc JobPosting := do
  let job_title ← requireString "job_title" d
  let company ← requireString "company" d
  let location ← optionalString "location" d
  let work_location ← optionalEnum "work_location" parseWorkLocation d
  let employment_type ← optionalEnum "employment_type" parseEmploymentType d
  let experience_level ← optionalEnum "experience_level" parseExperienceLevel d
  let salary ←
    match lookupKey d "salary" with
    | none => Except.ok none
    | some .null => Except.ok none
    | some (.obj fields) => (SalaryRange.model_validate fields).map some
    | some _ => Except.error (.validationError "salary: Input should be a valid dictionary")
  let requirements ← optionalList "requirements" d
  let nice_to_have ← optionalList "nice_to_have" d
  let responsibilities ← optionalList "responsibilities" d
  let benefits ← optionalList "benefits" d
  let application_url ← optionalUrl "application_url" d
  let application_deadline ← optionalDate "application_deadline" d
  let posted_date ← optionalDate "posted_date" d
  pure { job_title, company, location, work_location, employment_type,
         experience_level, salary, requirements, nice_to_have,
         responsibilities, benefits, application_url, application_deadline,
         posted_date }

def optStrJ : Option String → JVal
  | none => .null
  | some s => .str s

def optIntJ : Option Int → JVal
  | none => .null
  | some n => .int n

/-- Pydantic serialization of a `JobPosting` (`model_dump` in JSON mode):
every field is emitted, absent optionals as null / empty arrays. -/
def JobPosting.model_dump (j : JobPosting) : List (String × JVal) :=
  [("job_title", .str j.job_title),
   ("company", .str j.company),
   ("location", optStrJ j.location),
   ("work_location", optStrJ (j.work_location.map workLocationValue)),
   ("employment_type", optStrJ (j.employment_type.map employmentTypeValue)),
   ("experience_level", optStrJ (j.experience_level.map experienceLevelValue)),
   ("salary",
     match j.salary with
     | none => JVal.null
     | some s => .obj [("min", optIntJ s.min), ("max", optIntJ s.max), ("currency", .str s.currency)]),
   ("requirements", .arr (j.requirements.map JVal.str)),
   ("nice_to_have", .arr (j.nice_to_have.map JVal.str)),
   ("responsibilities", .arr (j.responsibilities.map JVal.str)),
   ("benefits", .arr (j.benefits.map JVal.str)),
   ("application_url", optStrJ j.application_url),
   ("application_deadline", optStrJ (j.application_deadline.map dateISO)),
   ("posted_date", optStrJ (j.posted_date.map dateISO))]

/-- `JobPosting(job_title=t, company=c)`: construction with only the two
required fields, all other fields at their declared defaults. -/
def jobPostingMinimal (t c : String) : JobPosting :=
  { job_title := t, company := c }

/-- `models.UsageInfo`: plain `int` fields, no further constraint. -/
structure UsageInfo where
  input_tokens : Int
  output_tokens : Int
deriving DecidableEq

/-- Token usage reported by the backend on a `messages.create` response
(`anthropic.types.Usage`, the part the connector reads). -/
structure Usage where
  input_tokens : Int
  output_tokens : Int

/-- The tool input carried by a `ToolUseBlock`: a dict, or some other JSON
value whose Python type name is recorded for the error message. -/
inductive ToolInput where
  | dict (d : List (String × JVal))
  | nondict (typeName : String)

/-- A content block of a backend response: `TextBlock`, `ToolUseBlock`, or
another block kind such as `ThinkingBlock`. -/
inductive ContentBlock where
  | text (text : String)
  | toolUse (input : ToolInput)
  | thinking (s : String)

/-- `type(content_block).__name__`. -/
def blockTypeName : ContentBlock → String
  | .text _ => "TextBlock"
  | .toolUse _ => "ToolUseBlock"
  | .thinking _ => "ThinkingBlock"

/-- `isinstance(block, TextBlock)`. -/
def isTextBlock : ContentBlock → Bool
  | .text _ => true
  | _ => false

/-- `isinstance(block, ToolUseBlock)`. -/
def isToolUseBlock : ContentBlock → Bool
  | .toolUse _ => true
  | _ => false

/-- What `client.messages.create` returns on success (the fields read by the
connector). -/
structure MessagesResponse where
  content : List ContentBlock
  model : String
  usage : Usage

/-- One backend call either returns a response or raises an exception. -/
inductive BackendOutcome where
  | success (response : MessagesResponse)
  | failure (e : Exc)

/-- `models.ClaudeResponse`. -/
structure ClaudeResponse where
  response : String
  model : String
  usage : UsageInfo
deriving DecidableEq

/-- `models.RawExtractionResult`. -/
structure RawExtractionResult where
  job : JobPosting
  raw_response : String
  model : String
  usage : UsageInfo
deriving DecidableEq

/-- `ClaudeConnector._handle_api_error`: re-raise retryable errors, wrap the
rest in `ExtractionError` with the original as `__cause__`. -/
def handle_api_error {α : Type} (error : Exc) : Except Exc α :=
  if is_retryable_error error then .error error
  else .error (.extractionError ("Claude API error: " ++ excStr error) (some error))

/-- The body of `send_message` after a successful backend call: empty content
and a non-text first block are `ExtractionError`s; otherwise the first text
block is returned together with model id and a fresh `UsageInfo`. -/
def processSendResponse (response : MessagesResponse) : Except Exc ClaudeResponse :=
  match response.content with
  | [] => .error (.extractionError "Claude returned empty response" none)
  | content_block :: _ =>
      match content_block with
      | .text text =>
          .ok { response := text, model := response.model,
                usage := { input_tokens := response.usage.input_tokens,
                           output_tokens := response.usage.output_tokens } }
      | b => .error (.extractionError ("Unexpected response type: " ++ blockTypeName b) none)

/-- One attempt of `ClaudeConnector.send_message` (the decorated function
body): validation, then the backend call; `anthropic.APIError`s go through
`_handle_api_error`, other backend exceptions propagate raw. -/
def send_message_attempt (outcome : BackendOutcome) (message : String) :
    Except Exc ClaudeResponse :=
  match validate_message message with
  | .error e => .error e
  | .ok _ =>
      match outcome with
      | .failure e => if isAPIError e then handle_api_error e else .error e
      | .success response => processSendResponse response

/-- The scan in `extract_job_posting`: input of the first `ToolUseBlock`. -/
def findToolUse : List ContentBlock → Option ToolInput
  | [] => none
  | .toolUse input :: _ => some input
  | _ :: rest => findToolUse rest

/-- `str(job_data)` for `raw_response`: an opaque debug rendering of the dict
(abstracted to its key list; no claim inspects this string's content). -/
def jobDictStr (d : List (String × JVal)) : String :=
  String.intercalate ", " (d.map (fun p => p.1))

/-- The try-body of `extract_job_posting` after a successful backend call:
find the tool-use block, check it is a dict, validate into a `JobPosting`,
assemble the `RawExtractionResult` with a fresh `UsageInfo`.  Exceptions are
returned raw here and routed through the except chain by the caller. -/
def extract_try_body (response : MessagesResponse) : Except Exc RawExtractionResult :=
  match findToolUse response.content with
  | none => .error (.extractionError "Claude did not return structured output" none)
  | some (.nondict typeName) =>
      .error (.extractionError ("Unexpected tool input type: " ++ typeName) none)
  | some (.dict job_data) =>
      match JobPosting.model_validate job_data with
      | .error e => .error e
      | .ok job =>
          .ok { job := job, raw_response := jobDictStr job_data,
                model := response.model,
                usage := { input_tokens := response.usage.input_tokens,
                           output_tokens := response.usage.output_tokens } }

/-- The except chain of `extract_job_posting`: `anthropic.APIError` goes to
`_handle_api_error`; `pydantic.ValidationError` is wrapped as an invalid
job data structure; `ExtractionError` is re-raised; anything else is wrapped
as a generic extraction failure. -/
def exceptChain {α : Type} (e : Exc) : Except Exc α :=
  if isAPIError e then handle_api_error e
  else
    match e with
    | .validationError m => .error (.extractionError ("Invalid job data structure: " ++ m) (some e))
    | .extractionError m c => .error (.extractionError m c)
    | e2 => .error (.extractionError ("Error extracting job posting: " ++ excStr e2) (some e2))

/-- One attempt of `ClaudeConnector.extract_job_posting` (the decorated
function body). -/
def extract_job_posting_attempt (outcome : BackendOutcome) (job_text : String) :
    Except Exc RawExtractionResult :=
  match validate_message job_text with
  | .error e => .error e
  | .ok _ =>
      match outcome with
      | .failure e => exceptChain e
      | .success response =>
          match extract_try_body response with
          | .ok r => .ok r
          | .error e => exceptChain e

/-- Tenacity `wait_exponential(multiplier, min, max)` with `exp_base = 2`:
`max(min, min(multiplier * 2 ^ (attempt_number - 1), max))`. -/
def wait_exponential (multiplier mn mx attempt_number : Nat) : Nat :=
  Nat.max (Nat.max 0 mn) (Nat.min (multiplier * 2 ^ (attempt_number - 1)) mx)

/-- The tenacity retry loop: run the attempt; on a retryable exception with
retries remaining, record the backoff wait and run the next attempt; else
re-raise (`reraise=True`).  Returns the result and the list of waits slept
between attempts. -/
def retryRun {α : Type} (call : Nat → Except Exc α) (retryPred : Exc → Bool)
    (wait : Nat → Nat) : Nat → Nat → Except Exc α × List Nat
  | attempt, fuel =>
      match call attempt with
      | .ok a => (.ok a, [])
      | .error e =>
          match fuel with
          | 0 => (.error e, [])
          | fuel2 + 1 =>
              if retryPred e then
                let rest := retryRun call retryPred wait (attempt + 1) fuel2
                (rest.1, wait attempt :: rest.2)
              else (.error e, [])

/-- The `@retry(...)` decorator with `stop_after_attempt(maxAttempts)` and
`reraise=True`, starting at attempt 1. -/
def tenacity_retry {α : Type} (call : Nat → Except Exc α) (retryPred : Exc → Bool)
    (wait : Nat → Nat) (maxAttempts : Nat) : Except Exc α × List Nat :=
  retryRun call retryPred wait 1 (maxAttempts - 1)

/-- The decorator applied in `claude.py` to both operations:
`retry_if_exception(_is_retryable_error)`, `wait_exponential(1, 1, 60)`,
`stop_after_attempt(3)`, `reraise=True`. -/
def retried {α : Type} (call : Nat → Except Exc α) : Except Exc α × List Nat :=
  tenacity_retry call is_retryable_error (wait_exponential 1 1 60) 3

/-- `ClaudeConnector.send_message` under retry: `backend n` is the outcome of
the backend call on the n-th attempt. -/
def send_message (backend : Nat → BackendOutcome) (message : String) :
    Except Exc ClaudeResponse × List Nat :=
  retried (fun n => send_message_attempt (backend n) message)

/-- `ClaudeConnector.extract_job_posting` under retry. -/
def extract_job_posting (backend : Nat → BackendOutcome) (job_text : String) :
    Except Exc RawExtractionResult × List Nat :=
  retried (fun n => extract_job_posting_attempt (backend n) job_text)

/-- `models.Confidence`. -/
inductive Confidence where
  | high | medium | low
deriving DecidableEq

/-- The nine boolean signals summed by
`ExtractionService._calculate_confidence`, in source order. -/
def optionalSignals (job : JobPosting) : List Bool :=
  [job.location.isSome,
   job.work_location.isSome,
   job.employment_type.isSome,
   job.experience_level.isSome,
   job.salary.isSome,
   decide (0 < job.requirements.length),
   decide (0 < job.nice_to_have.length),
   decide (0 < job.responsibilities.length),
   decide (0 < job.benefits.length)]

/-- `ExtractionService._calculate_confidence`. -/
def calculate_confidence (job : JobPosting) : Confidence :=
  let optional_fields_present := (optionalSignals job).count true
  if 6 ≤ optional_fields_present then .high
  else if 3 ≤ optional_fields_present then .medium
  else .low

/-- The populated-optional-signal count (`sum([...])` in the source). -/
def signalCount (job : JobPosting) : Nat :=
  (optionalSignals job).count true

/-- Rank for the low < medium < high order on confidence. -/
def confRank : Confidence → Nat
  | .low => 0
  | .medium => 1
  | .high => 2

/-- `models.JobExtractionResponse` (the orchestrator's result). -/
structure JobExtractionResponse where
  job : JobPosting
  confidence : Confidence
  raw_response : String
  model : String
  usage : UsageInfo
deriving DecidableEq

/-- `ExtractionService.extract_job`, as a function of the connector call's
outcome: connector errors propagate unchanged, a success is merged with the
computed confidence. -/
def extract_job (connectorResult : Except Exc RawExtractionResult) :
    Except Exc JobExtractionResponse :=
  match connectorResult with
  | .error e => .error e
  | .ok result =>
      .ok { job := result.job,
            confidence := calculate_confidence result.job,
            raw_response := result.raw_response,
            model := result.model,
            usage := result.usage }

/-- A concrete extraction with 8 of the 9 optional signals populated
(`responsibilities` present but empty, so it does not count). -/
def richJobExample : JobPosting :=
  { job_title := "Senior Python Developer", company := "TechCorp",
    location := some "Berlin, Germany",
    work_location := some .hybrid,
    employment_type := some .full_time,
    experience_level := some .senior,
    salary := some ⟨some 70000, some 90000, "EUR"⟩,
    requirements := ["5+ years Python", "FastAPI", "REST", "PostgreSQL"],
    nice_to_have := ["Docker", "AWS"],
    responsibilities := [],
    benefits := ["salary", "vacation", "remote", "budget"] }

/-- A job posting whose dropWhile of whitespace is empty iff every character is
whitespace. -/
theorem dropWhile_pyIsSpace_eq_nil_iff (l : List Char) :
    (l.dropWhile pyIsSpace = []) ↔ (l.all pyIsSpace = true) := by
  induction l with
  | nil => simp
  | cons a t ih =>
      by_cases h : pyIsSpace a
      · simp [List.dropWhile_cons, h, ih]
      · simp [List.dropWhile_cons, h]

theorem all_pyIsSpace_dropWhile (l : List Char) :
    ((l.dropWhile pyIsSpace).all pyIsSpace) = l.all pyIsSpace := by
  induction l with
  | nil => rfl
  | cons a t ih =>
      by_cases h : pyIsSpace a
      · simp [List.dropWhile_cons, h, ih]
      · simp [List.dropWhile_cons, h]

/-- `strip(s)` is empty exactly when `s` is all whitespace. -/
theorem py_strip_isEmpty_iff (l : List Char) :
    ((py_strip l).isEmpty = true) ↔ (l.all pyIsSpace = true) := by
  rw [py_strip, List.isEmpty_iff, List.reverse_eq_nil_iff,
    dropWhile_pyIsSpace_eq_nil_iff, List.all_reverse, all_pyIsSpace_dropWhile]

theorem validate_message_empty (msg : String) (h : msg.toList.all pyIsSpace = true) :
    validate_message msg = .error (.extractionError "Message cannot be empty" none) := by
  have h2 : (py_strip msg.toList).isEmpty = true := (py_strip_isEmpty_iff _).mpr h
  unfold validate_message
  rw [h2, Bool.or_true]
  rfl

theorem validate_message_ok (msg : String) (h1 : msg.toList.all pyIsSpace = false)
    (h2 : msg.length ≤ 50000) : validate_message msg = .ok () := by
  have hne : (py_strip msg.toList).isEmpty = false := by
    cases hh : (py_strip msg.toList).isEmpty
    · rfl
    · rw [(py_strip_isEmpty_iff _).mp hh] at h1; cases h1
  have hempty : msg.toList.isEmpty = false := by
    cases hl : msg.toList with
    | nil => rw [hl] at h1; simp at h1
    | cons a t => simp
  unfold validate_message
  rw [hempty, hne, Bool.or_false]
  simp [Nat.not_lt.mpr h2]

theorem validate_message_too_long (msg : String) (h1 : msg.toList.all pyIsSpace = false)
    (h2 : 50000 < msg.length) :
    validate_message msg =
      .error (.extractionError
        ("Message too long (" ++ pyCommaFormat msg.length ++
          " chars). Maximum supported length is " ++ pyCommaFormat 50000 ++
          " characters.") none) := by
  have hne : (py_strip msg.toList).isEmpty = false := by
    cases hh : (py_strip msg.toList).isEmpty
    · rfl
    · rw [(py_strip_isEmpty_iff _).mp hh] at h1; cases h1
  have hempty : msg.toList.isEmpty = false := by
    cases hl : msg.toList with
    | nil => rw [hl] at h1; simp at h1
    | cons a t => simp
  unfold validate_message
  rw [hempty, hne, Bool.or_false]
  simp [h2]

/-- C1: the retry/error classifier is a pure boolean function on a backend
error: rate-limit and connection errors are retryable; a status-coded error is
retryable exactly when its status is one of 429, 500, 502, 503, 504 (in
particular not for 400, 401, 403, 404, 422); every other error type is not
retryable. -/
theorem classifier_spec : ∀ (m : String) (code : Nat) (c : Option Exc),
    is_retryable_error (.rateLimitError m) = true ∧
    is_retryable_error (.apiConnectionError m) = true ∧
    is_retryable_error (.apiStatusError code m) =
      (code == 429 || code == 500 || code == 502 || code == 503 || code == 504) ∧
    is_retryable_error (.apiStatusError 400 m) = false ∧
    is_retryable_error (.apiStatusError 401 m) = false ∧
    is_retryable_error (.apiStatusError 403 m) = false ∧
    is_retryable_error (.apiStatusError 404 m) = false ∧
    is_retryable_error (.apiStatusError 422 m) = false ∧
    is_retryable_error (.extractionError m c) = false ∧
    is_retryable_error (.validationError m) = false ∧
    is_retryable_error (.other m) = false := by
  intro m code c
  exact ⟨rfl, rfl, rfl, rfl, rfl, rfl, rfl, rfl, rfl, rfl, rfl⟩

/-- C7: the orchestrator's `extract_job` returns the connector result's
`job`, `raw_response`, `model` and `usage` unchanged, plus the confidence
computed from that job; a connector error propagates unchanged. -/
theorem orchestrator_spec : ∀ (e : Exc) (r : RawExtractionResult),
    extract_job (.error e) = .error e ∧
    extract_job (.ok r) =
      .ok { job := r.job, confidence := calculate_confidence r.job,
            raw_response := r.raw_response, model := r.model, usage := r.usage } := by
  intro e r
  exact ⟨rfl, rfl⟩

/-- C8: a `JobPosting` built from only `job_title` and `company` has every
other field at its default (null options, empty lists); its serialized form
contains all 14 fields (none omitted), the optionals as null/empty; and
deserializing the serialized form gives back an equal `JobPosting`. -/
theorem jobposting_roundtrip_spec : ∀ t c : String,
    JobPosting.model_validate [("job_title", .str t), ("company", .str c)] =
      .ok (jobPostingMinimal t c) ∧
    (jobPostingMinimal t c).location = none ∧
    (jobPostingMinimal t c).work_location = none ∧
    (jobPostingMinimal t c).employment_type = none ∧
    (jobPostingMinimal t c).experience_level = none ∧
    (jobPostingMinimal t c).salary = none ∧
    (jobPostingMinimal t c).application_url = none ∧
    (jobPostingMinimal t c).application_deadline = none ∧
    (jobPostingMinimal t c).posted_date = none ∧
    (jobPostingMinimal t c).requirements = [] ∧
    (jobPostingMinimal t c).nice_to_have = [] ∧
    (jobPostingMinimal t c).responsibilities = [] ∧
    (jobPostingMinimal t c).benefits = [] ∧
    JobPosting.model_dump (jobPostingMinimal t c) =
      [("job_title", .str t), ("company", .str c), ("location", .null),
       ("work_location", .null), ("employment_type", .null),
       ("experience_level", .null), ("salary", .null),
       ("requirements", .arr []), ("nice_to_have", .arr []),
       ("responsibilities", .arr []), ("benefits", .arr []),
       ("application_url", .null), ("application_deadline", .null),
       ("posted_date", .null)] ∧
    (JobPosting.model_dump (jobPostingMinimal t c)).map Prod.fst =
      ["job_title", "company", "location", "work_location", "employment_type",
       "experience_level", "salary", "requirements", "nice_to_have",
       "responsibilities", "benefits", "application_url",
       "application_deadline", "posted_date"] ∧
    JobPosting.model_validate (JobPosting.model_dump (jobPostingMinimal t c)) =
      .ok (jobPostingMinimal t c) := by
  intro t c
  exact ⟨rfl, rfl, rfl, rfl, rfl, rfl, rfl, rfl, rfl, rfl, rfl, rfl, rfl, rfl, rfl, rfl⟩

theorem retried_of_terminal {α : Type} (call : Nat → Except Exc α) (e : Exc)
    (h1 : call 1 = .error e) (hr : is_retryable_error e = false) :
    retried call = (.error e, []) := by
  simp [retried, tenacity_retry, retryRun, h1, hr]

/-- C2: both operations validate the text before any backend call: a
whitespace-only (or empty) text fails with the cannot-be-empty
`ExtractionError`; a text over 50,000 characters fails with the too-long
`ExtractionError` reporting the actual and the maximum length; a text of at
most 50,000 characters (in particular exactly 50,000) passes validation.  In
both failure cases the outcome is the same for every backend and no attempt
consults it, so no network I/O happens. -/
theorem input_validation_spec (msg : String) :
    (msg.toList.all pyIsSpace = true →
      validate_message msg = .error (.extractionError "Message cannot be empty" none) ∧
      ∀ backend : Nat → BackendOutcome,
        send_message backend msg =
          (.error (.extractionError "Message cannot be empty" none), []) ∧
        extract_job_posting backend msg =
          (.error (.extractionError "Message cannot be empty" none), [])) ∧
    (msg.toList.all pyIsSpace = false → 50000 < msg.length →
      validate_message msg =
        .error (.extractionError
          ("Message too long (" ++ pyCommaFormat msg.length ++
            " chars). Maximum supported length is " ++ pyCommaFormat 50000 ++
            " characters.") none) ∧
      ∀ backend : Nat → BackendOutcome,
        send_message backend msg =
          (.error (.extractionError
            ("Message too long (" ++ pyCommaFormat msg.length ++
              " chars). Maximum supported length is " ++ pyCommaFormat 50000 ++
              " characters.") none), []) ∧
        extract_job_posting backend msg =
          (.error (.extractionError
            ("Message too long (" ++ pyCommaFormat msg.length ++
              " chars). Maximum supported length is " ++ pyCommaFormat 50000 ++
              " characters.") none), [])) ∧
    (msg.toList.all pyIsSpace = false → msg.length ≤ 50000 →
      validate_message msg = .ok ()) ∧
    pyCommaFormat 50000 = "50,000" := by
  refine ⟨?_, ?_, ?_, rfl⟩
  · intro h
    have hv := validate_message_empty msg h
    refine ⟨hv, fun backend => ⟨?_, ?_⟩⟩
    · exact retried_of_terminal _ _ (by rw [send_message_attempt.eq_def, hv]) rfl
    · exact retried_of_terminal _ _ (by rw [extract_job_posting_attempt.eq_def, hv]) rfl
  · intro h1 h2
    have hv := validate_message_too_long msg h1 h2
    refine ⟨hv, fun backend => ⟨?_, ?_⟩⟩
    · exact retried_of_terminal _ _ (by rw [send_message_attempt.eq_def, hv]) rfl
    · exact retried_of_terminal _ _ (by rw [extract_job_posting_attempt.eq_def, hv]) rfl
  · intro h1 h2
    exact validate_message_ok msg h1 h2

/-- C2 witness: a whitespace-only text and an over-long text are rejected
identically under any backend; a 50,000-character text passes validation. -/
theorem input_validation_spec_witness :
    (send_message (fun _ => .failure (.other "net")) "   " =
      (.error (.extractionError "Message cannot be empty" none), [])) ∧
    (validate_message (String.mk (List.replicate 50000 'a')) = .ok ()) ∧
    (send_message (fun _ => .failure (.other "net"))
        (String.mk (List.replicate 50001 'a')) =
      (.error (.extractionError
        ("Message too long (" ++
          pyCommaFormat (String.mk (List.replicate 50001 'a')).length ++
          " chars). Maximum supported length is " ++ pyCommaFormat 50000 ++
          " characters.") none), [])) := by
  have hlen1 : (String.mk (List.replicate 50001 'a')).length = 50001 := by
    show (List.replicate 50001 'a').length = 50001
    rw [List.length_replicate]
  have hlen0 : (String.mk (List.replicate 50000 'a')).length = 50000 := by
    show (List.replicate 50000 'a').length = 50000
    rw [List.length_replicate]
  refine ⟨(((input_validation_spec "   ").1 (by decide)).2
    (fun _ => .failure (.other "net"))).1, ?_, ?_⟩
  · exact (input_validation_spec _).2.2.1 (by decide) (by rw [hlen0])
  · exact (((input_validation_spec _).2.1 (by decide) (by rw [hlen1]; decide)).2
      (fun _ => .failure (.other "net"))).1

/-- C3: both operations run under the same tenacity decorator; its behaviour
on an arbitrary sequence of attempt outcomes is exactly: at most 3 attempts,
a failed attempt is retried iff the classifier marks its error retryable,
waits happen only between attempts (1 time-unit after attempt 1, 2 after
attempt 2, never after the last), and on exhaustion the error of the last
attempt is returned unmodified.  The backoff formula applied is
exponential from 1, doubling, capped at 60. -/
theorem retry_policy_spec : ∀ {α : Type} (call : Nat → Except Exc α)
    (backend : Nat → BackendOutcome) (msg : String),
    send_message backend msg = retried (fun n => send_message_attempt (backend n) msg) ∧
    extract_job_posting backend msg =
      retried (fun n => extract_job_posting_attempt (backend n) msg) ∧
    (retried call =
      match call 1 with
      | .ok a => (.ok a, [])
      | .error e1 =>
        if is_retryable_error e1 then
          match call 2 with
          | .ok a => (.ok a, [1])
          | .error e2 =>
            if is_retryable_error e2 then
              match call 3 with
              | .ok a => (.ok a, [1, 2])
              | .error e3 => (.error e3, [1, 2])
            else (.error e2, [1])
        else (.error e1, [])) ∧
    (∀ n : Nat, wait_exponential 1 1 60 (n + 1) = Nat.min (2 ^ n) 60) := by
  intro α call backend msg
  refine ⟨rfl, rfl, ?_, ?_⟩
  · have w1 : wait_exponential 1 1 60 1 = 1 := by decide
    have w2 : wait_exponential 1 1 60 2 = 2 := by decide
    cases h1 : call 1 with
    | ok a => simp [retried, tenacity_retry, retryRun, h1]
    | error e1 =>
        cases hr1 : is_retryable_error e1 with
        | false => simp [retried, tenacity_retry, retryRun, h1, hr1]
        | true =>
            cases h2 : call 2 with
            | ok a => simp [retried, tenacity_retry, retryRun, h1, h2, hr1, w1]
            | error e2 =>
                cases hr2 : is_retryable_error e2 with
                | false => simp [retried, tenacity_retry, retryRun, h1, h2, hr1, hr2, w1]
                | true =>
                    cases h3 : call 3 with
                    | ok a =>
                        simp [retried, tenacity_retry, retryRun, h1, h2, h3, hr1, hr2, w1, w2]
                    | error e3 =>
                        simp [retried, tenacity_retry, retryRun, h1, h2, h3, hr1, hr2, w1, w2]
  · intro n
    have h1 : 1 ≤ 2 ^ n := Nat.one_le_two_pow
    unfold wait_exponential
    have h2 : n + 1 - 1 = n := rfl
    have h3 : 1 ≤ Nat.min (2 ^ n) 60 := Nat.le_min.mpr ⟨h1, by norm_num⟩
    rw [h2, one_mul, show Nat.max 0 1 = 1 from rfl]
    exact Nat.max_eq_right h3

/-- C4: at the backend-error boundary (both attempt bodies route a raised
`anthropic.APIError` through `_handle_api_error`): an error the classifier
marks retryable is re-raised as-is; a non-retryable one is wrapped into an
`ExtractionError` whose message carries the original message and whose cause
is the original error. -/
theorem error_translation_spec {α : Type} (e : Exc) (msg : String) :
    (is_retryable_error e = true → (handle_api_error e : Except Exc α) = .error e) ∧
    (is_retryable_error e = false →
      (handle_api_error e : Except Exc α) =
        .error (.extractionError ("Claude API error: " ++ excStr e) (some e))) ∧
    (isAPIError e = true → validate_message msg = .ok () →
      send_message_attempt (.failure e) msg = handle_api_error e ∧
      extract_job_posting_attempt (.failure e) msg = handle_api_error e) := by
  refine ⟨?_, ?_, ?_⟩
  · intro h
    simp [handle_api_error, h]
  · intro h
    simp [handle_api_error, h]
  · intro hA hv
    constructor
    · simp [send_message_attempt, hv, hA]
    · simp [extract_job_posting_attempt, hv, exceptChain, hA]

/-- C4 witness: a 503 error is re-raised as-is; a 404 error is wrapped with
its message and cause; a raised API error reaches `_handle_api_error` from
the send path. -/
theorem error_translation_spec_witness :
    (handle_api_error (.apiStatusError 503 "overloaded") : Except Exc ClaudeResponse) =
      .error (.apiStatusError 503 "overloaded") ∧
    (handle_api_error (.apiStatusError 404 "nope") : Except Exc ClaudeResponse) =
      .error (.extractionError "Claude API error: nope" (some (.apiStatusError 404 "nope"))) ∧
    send_message_attempt (.failure (.apiStatusError 404 "nope")) "hi" =
      (handle_api_error (.apiStatusError 404 "nope") : Except Exc ClaudeResponse) := by
  refine ⟨?_, ?_, ?_⟩
  · exact (@error_translation_spec ClaudeResponse (.apiStatusError 503 "overloaded") "hi").1
      (by decide)
  · exact (@error_translation_spec ClaudeResponse (.apiStatusError 404 "nope") "hi").2.1
      (by decide)
  · exact ((@error_translation_spec ClaudeResponse (.apiStatusError 404 "nope") "hi").2.2
      (by decide) rfl).1

theorem findToolUse_eq_none (l : List ContentBlock)
    (h : ∀ b ∈ l, isToolUseBlock b = false) : findToolUse l = none := by
  induction l with
  | nil => rfl
  | cons b rest ih =>
      cases b with
      | text t => exact ih fun x hx => h x (List.mem_cons_of_mem _ hx)
      | toolUse i =>
          have hb := h _ (List.mem_cons_self _ _)
          simp [isToolUseBlock] at hb
      | thinking s => exact ih fun x hx => h x (List.mem_cons_of_mem _ hx)

/-- C5: `extract_job_posting` scans all content blocks for a tool-use block:
when no block in the sequence is a tool-use block it fails with the
did-not-return-structured-output `ExtractionError`; when the first tool-use
payload is a dict that fails `JobPosting` validation, the failure is wrapped
as an invalid-job-data-structure `ExtractionError` (with the validation error
as cause) and is never surfaced as the raw validation error. -/
theorem structured_output_spec (resp : MessagesResponse) (msg : String)
    (d : List (String × JVal)) (m : String) :
    ((∀ b ∈ resp.content, isToolUseBlock b = false) → findToolUse resp.content = none) ∧
    (validate_message msg = .ok () → (∀ b ∈ resp.content, isToolUseBlock b = false) →
      extract_job_posting (fun _ => .success resp) msg =
        (.error (.extractionError "Claude did not return structured output" none), [])) ∧
    (validate_message msg = .ok () → findToolUse resp.content = some (.dict d) →
      JobPosting.model_validate d = .error (.validationError m) →
      extract_job_posting (fun _ => .success resp) msg =
        (.error (.extractionError ("Invalid job data structure: " ++ m)
          (some (.validationError m))), []) ∧
      ∀ m2 : String,
        (extract_job_posting (fun _ => .success resp) msg).1 ≠ .error (.validationError m2)) := by
  refine ⟨findToolUse_eq_none resp.content, ?_, ?_⟩
  · intro hv hnone
    have hf := findToolUse_eq_none resp.content hnone
    have hatt : extract_job_posting_attempt (.success resp) msg =
        .error (.extractionError "Claude did not return structured output" none) := by
      simp [extract_job_posting_attempt, hv, extract_try_body, hf, exceptChain,
        isAPIError, handle_api_error]
    exact retried_of_terminal _ _ hatt rfl
  · intro hv hf hval
    have hatt : extract_job_posting_attempt (.success resp) msg =
        .error (.extractionError ("Invalid job data structure: " ++ m)
          (some (.validationError m))) := by
      simp [extract_job_posting_attempt, hv, extract_try_body, hf, hval, exceptChain,
        isAPIError, handle_api_error]
    have hrun : extract_job_posting (fun _ => .success resp) msg =
        (.error (.extractionError ("Invalid job data structure: " ++ m)
          (some (.validationError m))), []) :=
      retried_of_terminal _ _ hatt rfl
    refine ⟨hrun, ?_⟩
    intro m2
    rw [hrun]
    simp

/-- C5 witness: a response with only text blocks yields the
structured-output error; a tool-use payload missing `job_title` and `company`
yields the invalid-job-data-structure error. -/
theorem structured_output_spec_witness :
    extract_job_posting
        (fun _ => .success ⟨[.text "no tools"], "m", ⟨1, 2⟩⟩) "hi" =
      (.error (.extractionError "Claude did not return structured output" none), []) ∧
    extract_job_posting
        (fun _ => .success
          ⟨[.text "x", .toolUse (.dict [("location", .str "Berlin")])], "m", ⟨1, 2⟩⟩) "hi" =
      (.error (.extractionError
        ("Invalid job data structure: " ++ "job_title: Field required")
        (some (.validationError "job_title: Field required"))), []) := by
  constructor
  · exact (structured_output_spec ⟨[.text "no tools"], "m", ⟨1, 2⟩⟩ "hi" [] "").2.1 rfl
      (by intro b hb; simp at hb; rw [hb]; rfl)
  · exact ((structured_output_spec
      ⟨[.text "x", .toolUse (.dict [("location", .str "Berlin")])], "m", ⟨1, 2⟩⟩ "hi"
      [("location", .str "Berlin")] "job_title: Field required").2.2 rfl rfl rfl).1

theorem calculate_confidence_eq (job : JobPosting) :
    calculate_confidence job =
      if 6 ≤ signalCount job then .high
      else if 3 ≤ signalCount job then .medium
      else .low := rfl

/-- C6: the confidence function counts exactly the 9 optional signals (the 5
option-valued fields when non-null, the 4 list fields when non-empty) and
returns high iff the count is at least 6, medium iff it is between 3 and 5,
and low iff it is at most 2; it is monotonic non-decreasing in the count and
depends on the job only through the count. -/
theorem confidence_spec (job : JobPosting) :
    (optionalSignals job).length = 9 ∧
    signalCount job ≤ 9 ∧
    (calculate_confidence job = .high ↔ 6 ≤ signalCount job) ∧
    (calculate_confidence job = .medium ↔ 3 ≤ signalCount job ∧ signalCount job ≤ 5) ∧
    (calculate_confidence job = .low ↔ signalCount job ≤ 2) ∧
    (∀ j2 : JobPosting, signalCount job ≤ signalCount j2 →
      confRank (calculate_confidence job) ≤ confRank (calculate_confidence j2)) ∧
    (∀ j2 : JobPosting, signalCount job = signalCount j2 →
      calculate_confidence job = calculate_confidence j2) := by
  refine ⟨rfl, ?_, ?_, ?_, ?_, ?_, ?_⟩
  · have h : (optionalSignals job).count true ≤ (optionalSignals job).length :=
      List.count_le_length true (optionalSignals job)
    exact h.trans (Nat.le_of_eq rfl)
  · rw [calculate_confidence_eq]
    split_ifs with h6 h3 <;> simp <;> omega
  · rw [calculate_confidence_eq]
    split_ifs with h6 h3 <;> simp <;> omega
  · rw [calculate_confidence_eq]
    split_ifs with h6 h3 <;> simp <;> omega
  · intro j2 hle
    rw [calculate_confidence_eq, calculate_confidence_eq]
    split_ifs <;> simp [confRank] <;> omega
  · intro j2 heq
    rw [calculate_confidence_eq, calculate_confidence_eq, heq]

theorem retried_of_ok {α : Type} (call : Nat → Except Exc α) (a : α)
    (h1 : call 1 = .ok a) : retried call = (.ok a, []) := by
  simp [retried, tenacity_retry, retryRun, h1]

/-- C6 witness: the 8-signal job (empty `responsibilities` not counted) is
high confidence; the minimal job is low confidence. -/
theorem confidence_spec_witness :
    calculate_confidence richJobExample = .high ∧
    calculate_confidence (jobPostingMinimal "Dev" "ACME") = .low := by
  constructor
  · exact (confidence_spec richJobExample).2.2.1.mpr (by decide)
  · exact (confidence_spec (jobPostingMinimal "Dev" "ACME")).2.2.2.2.1.mpr (by decide)

/-- C9 counterexample: `UsageInfo` does not enforce non-negativity — a
backend response reporting a negative token count flows through
`send_message` into a successfully returned `UsageInfo` with a negative
`input_tokens`, so not every `UsageInfo` value has non-negative fields. -/
theorem usage_nonneg_counterexample :
    send_message (fun _ => .success ⟨[.text "ok"], "claude-x", ⟨-5, 7⟩⟩) "hi" =
      (.ok ⟨"ok", "claude-x", ⟨-5, 7⟩⟩, []) ∧
    ((⟨-5, 7⟩ : UsageInfo).input_tokens < 0) := by
  exact ⟨rfl, by decide⟩

/-- C9 (amended): each successful call constructs a fresh `UsageInfo` whose
two fields are exactly the backend-reported token counts, unchanged; hence
they are non-negative whenever the backend reports non-negative counts (no
non-negativity is validated by `UsageInfo` itself, and nothing mutates an
existing value — all model values are immutable in this embedding). -/
theorem usage_passthrough_spec (resp : MessagesResponse) (cr : ClaudeResponse)
    (r : RawExtractionResult) :
    (processSendResponse resp = .ok cr →
      cr.usage = ⟨resp.usage.input_tokens, resp.usage.output_tokens⟩) ∧
    (extract_try_body resp = .ok r →
      r.usage = ⟨resp.usage.input_tokens, resp.usage.output_tokens⟩) ∧
    (processSendResponse resp = .ok cr → 0 ≤ resp.usage.input_tokens →
      0 ≤ resp.usage.output_tokens →
      0 ≤ cr.usage.input_tokens ∧ 0 ≤ cr.usage.output_tokens) := by
  have k1 : processSendResponse resp = .ok cr →
      cr.usage = ⟨resp.usage.input_tokens, resp.usage.output_tokens⟩ := by
    intro h
    rcases hc : resp.content with _ | ⟨b, rest⟩
    · simp [processSendResponse, hc] at h
    · cases b with
      | text t =>
          simp [processSendResponse, hc] at h
          rw [← h]
      | toolUse i => simp [processSendResponse, hc] at h
      | thinking s => simp [processSendResponse, hc] at h
  have k2 : extract_try_body resp = .ok r →
      r.usage = ⟨resp.usage.input_tokens, resp.usage.output_tokens⟩ := by
    intro h
    rcases hf : findToolUse resp.content with _ | ti
    · simp [extract_try_body, hf] at h
    · cases ti with
      | nondict tn => simp [extract_try_body, hf] at h
      | dict dd =>
          rcases hv : JobPosting.model_validate dd with e | j
          · simp [extract_try_body, hf, hv] at h
          · simp [extract_try_body, hf, hv] at h
            rw [← h]
  refine ⟨k1, k2, ?_⟩
  intro h h1 h2
  rw [k1 h]
  exact ⟨h1, h2⟩

/-- C9 witness: with backend-reported counts (3, 4), the returned usage is
exactly (3, 4), and both fields are non-negative. -/
theorem usage_passthrough_spec_witness :
    (⟨"ok", "m", ⟨3, 4⟩⟩ : ClaudeResponse).usage = (⟨3, 4⟩ : UsageInfo) ∧
    (0 ≤ ((⟨"ok", "m", ⟨3, 4⟩⟩ : ClaudeResponse)).usage.input_tokens ∧
     0 ≤ ((⟨"ok", "m", ⟨3, 4⟩⟩ : ClaudeResponse)).usage.output_tokens) := by
  have h := usage_passthrough_spec ⟨[.text "ok"], "m", ⟨3, 4⟩⟩ ⟨"ok", "m", ⟨3, 4⟩⟩
      ⟨jobPostingMinimal "a" "b", "", "", ⟨0, 0⟩⟩
  exact ⟨h.1 rfl, h.2.2 rfl (by decide) (by decide)⟩

/-- C10: `send_message` inspects only the first content block: empty content
fails with the empty-response `ExtractionError`; a first block that is not a
text block fails with the unexpected-response-type `ExtractionError` no
matter what follows it; a first text block is returned (any further blocks
are ignored). -/
theorem send_first_block_spec (resp : MessagesResponse) (msg : String)
    (hv : validate_message msg = .ok ()) :
    (resp.content = [] →
      send_message (fun _ => .success resp) msg =
        (.error (.extractionError "Claude returned empty response" none), [])) ∧
    (∀ t rest, resp.content = ContentBlock.text t :: rest →
      send_message (fun _ => .success resp) msg =
        (.ok ⟨t, resp.model, ⟨resp.usage.input_tokens, resp.usage.output_tokens⟩⟩, [])) ∧
    (∀ b rest, resp.content = b :: rest → isTextBlock b = false →
      send_message (fun _ => .success resp) msg =
        (.error (.extractionError ("Unexpected response type: " ++ blockTypeName b) none), [])) := by
  refine ⟨?_, ?_, ?_⟩
  · intro hc
    have hatt : send_message_attempt (.success resp) msg =
        .error (.extractionError "Claude returned empty response" none) := by
      simp [send_message_attempt, hv, processSendResponse, hc]
    exact retried_of_terminal _ _ hatt rfl
  · intro t rest hc
    have hatt : send_message_attempt (.success resp) msg =
        .ok ⟨t, resp.model, ⟨resp.usage.input_tokens, resp.usage.output_tokens⟩⟩ := by
      simp [send_message_attempt, hv, processSendResponse, hc]
    exact retried_of_ok _ _ hatt
  · intro b rest hc hb
    cases b with
    | text t => simp [isTextBlock] at hb
    | toolUse i =>
        have hatt : send_message_attempt (.success resp) msg =
            .error (.extractionError
              ("Unexpected response type: " ++ blockTypeName (.toolUse i)) none) := by
          simp [send_message_attempt, hv, processSendResponse, hc]
        exact retried_of_terminal _ _ hatt rfl
    | thinking s =>
        have hatt : send_message_attempt (.success resp) msg =
            .error (.extractionError
              ("Unexpected response type: " ++ blockTypeName (.thinking s)) none) := by
          simp [send_message_attempt, hv, processSendResponse, hc]
        exact retried_of_terminal _ _ hatt rfl

/-- C10 witness: a non-text first block fails with the unexpected-type error
even though a text block occurs later in the sequence. -/
theorem send_first_block_spec_witness :
    send_message (fun _ => .success
        ⟨[.toolUse (.nondict "list"), .text "later"], "m", ⟨1, 2⟩⟩) "hi" =
      (.error (.extractionError "Unexpected response type: ToolUseBlock" none), []) := by
  exact (send_first_block_spec
      ⟨[.toolUse (.nondict "list"), .text "later"], "m", ⟨1, 2⟩⟩ "hi" rfl).2.2
      (.toolUse (.nondict "list")) [.text "later"] rfl rfl
